import Mathlib

/-!
Shallow embedding of `src/healthcare-risk-scoring.js` (class
`HealthcareRiskScorer`): the field risk evaluators, the data-quality
validator, the per-record aggregator `processPatients`, the paginated
fetch loop `fetchAllPatients`, and the retry wrapper
`makeRequestWithRetry`.

Modelling conventions:
* JavaScript field values (`patient.blood_pressure`, `patient.temperature`,
  `patient.age`) are embedded as `JSVal`: `null` collapses JS `null`,
  `undefined` and a missing property (the code only ever distinguishes them
  from other values via `=== null || === undefined` and falsiness, where
  they behave identically); `num` carries the numeric value as an exact
  rational (the numbers the program compares against — 99.6, 101.0, ages,
  blood-pressure components — are all exact decimals, and only order
  comparisons are performed on them, so exact rationals are faithful for
  every value in the modelled fragment); `str` is a string; `bool` a
  boolean.  Non-finite numbers (`NaN`, `Infinity`) and the string
  `"Infinity"` are outside the modelled fragment.
* `parseInt` / `parseFloat` are embedded on strings by `jsStrParseInt` /
  `jsStrParseFloat`: skip leading whitespace, optional sign, then the
  longest valid numeric prefix (digits for `parseInt`, including the `0x`
  hexadecimal form; digits, optional fraction and optional exponent for
  `parseFloat`); no valid prefix means `NaN`, embedded as `none`.
* `parseInt` applied to a JS number goes through the number's decimal
  string; for numbers printed in plain (non-exponential) decimal notation
  that is truncation toward zero, which is how it is modelled here
  (`ratTrunc`); numbers so small or large that JS prints them in exponent
  notation are outside the modelled fragment.  `parseFloat` applied to a
  finite JS number returns that number unchanged.
-/

/-- A JavaScript value as it can appear in a patient-record field.
`null` also stands for `undefined` and for a missing property. -/
inductive JSVal where
  | null : JSVal
  | num (q : ℚ) : JSVal
  | str (s : String) : JSVal
  | bool (b : Bool) : JSVal
deriving DecidableEq, Repr

/-- JS truthiness of a `JSVal` (`!v` is `!truthy v`): `null`/`undefined`,
`0`, `""` and `false` are falsy, everything else modelled here is truthy. -/
def truthy : JSVal → Bool
  | .null => false
  | .num q => q ≠ 0
  | .str s => s ≠ ""
  | .bool b => b

/-- Numeric value of a decimal digit character. -/
def digitVal (c : Char) : Nat := c.toNat - '0'.toNat

/-- Value of a list of decimal digit characters, most significant first. -/
def decDigitsVal (cs : List Char) : Nat :=
  cs.foldl (fun a c => 10 * a + digitVal c) 0

/-- Hexadecimal digit test. -/
def hexDigit (c : Char) : Bool :=
  c.isDigit || ('a' ≤ c && c ≤ 'f') || ('A' ≤ c && c ≤ 'F')

/-- Numeric value of a hexadecimal digit character. -/
def hexDigitVal (c : Char) : Nat :=
  if c.isDigit then c.toNat - '0'.toNat
  else if 'a' ≤ c && c ≤ 'f' then c.toNat - 'a'.toNat + 10
  else c.toNat - 'A'.toNat + 10

/-- Value of a list of hexadecimal digit characters, most significant first. -/
def hexDigitsVal (cs : List Char) : Nat :=
  cs.foldl (fun a c => 16 * a + hexDigitVal c) 0

/-- Consume an optional leading sign, returning the sign and the rest. -/
def jsSign : List Char → Int × List Char
  | '-' :: cs => (-1, cs)
  | '+' :: cs => (1, cs)
  | cs => (1, cs)

/-- JS `parseInt(s)` (radix unspecified): skip leading whitespace, optional
sign, then the longest prefix of decimal digits — or, after `0x`/`0X`, of
hexadecimal digits; ignore everything after it.  `none` is `NaN`. -/
def jsStrParseInt (s : String) : Option Int :=
  let cs := s.data.dropWhile (·.isWhitespace)
  let sc := jsSign cs
  match sc.2 with
  | '0' :: c :: rest =>
      if c = 'x' ∨ c = 'X' then
        let hs := rest.takeWhile hexDigit
        if hs.isEmpty then none else some (sc.1 * (hexDigitsVal hs : Int))
      else
        some (sc.1 * (decDigitsVal (('0' :: c :: rest).takeWhile (·.isDigit)) : Int))
  | cs2 =>
      let ds := cs2.takeWhile (·.isDigit)
      if ds.isEmpty then none else some (sc.1 * (decDigitsVal ds : Int))

/-- JS `parseFloat(s)`: skip leading whitespace, optional sign, then the
longest prefix shaped `digits [. digits] [e|E [sign] digits]`, with at
least one digit before or after the dot; ignore everything after it.
`none` is `NaN`.  (The `Infinity` literal is outside the modelled
fragment.) -/
def jsStrParseFloat (s : String) : Option ℚ :=
  let cs := s.data.dropWhile (·.isWhitespace)
  let sc := jsSign cs
  let intDs := sc.2.takeWhile (·.isDigit)
  let rest1 := sc.2.drop intDs.length
  let fracDs :=
    match rest1 with
    | '.' :: r => r.takeWhile (·.isDigit)
    | _ => []
  let rest2 :=
    match rest1 with
    | '.' :: r => r.drop fracDs.length
    | _ => rest1
  if intDs.isEmpty ∧ fracDs.isEmpty then none
  else
    let mantissa : ℚ :=
      (decDigitsVal intDs : ℚ) + (decDigitsVal fracDs : ℚ) / ((10 : ℚ) ^ fracDs.length)
    let expo : Int :=
      match rest2 with
      | e :: r =>
          if e = 'e' ∨ e = 'E' then
            let esc := jsSign r
            let eds := esc.2.takeWhile (·.isDigit)
            if eds.isEmpty then 0 else esc.1 * (decDigitsVal eds : Int)
          else 0
      | [] => 0
    some ((sc.1 : ℚ) * mantissa * (10 : ℚ) ^ expo)

/-- Truncation of a rational toward zero, the integer part JS `parseInt`
extracts from a number printed in plain decimal notation. -/
def ratTrunc (q : ℚ) : Int := if q < 0 then ⌈q⌉ else ⌊q⌋

/-- JS `parseInt` on an arbitrary value: the argument is converted to a
string first, so a number is truncated toward zero (plain decimal
notation assumed), `null`/`undefined` and booleans give `NaN`
(`"null"`, `"undefined"`, `"true"`, `"false"` have no digit prefix). -/
def jsParseInt : JSVal → Option Int
  | .null => none
  | .num q => some (ratTrunc q)
  | .str s => jsStrParseInt s
  | .bool _ => none

/-- JS `parseFloat` on an arbitrary value: a finite number parses back to
itself, `null`/`undefined` and booleans give `NaN`. -/
def jsParseFloat : JSVal → Option ℚ
  | .null => none
  | .num q => some q
  | .str s => jsStrParseFloat s
  | .bool _ => none

/-- JS `String.prototype.split` with a one-character separator: split at
every occurrence, keeping empty pieces; the empty string yields `[""]`. -/
def jsSplit (sep : Char) : List Char → List (List Char)
  | [] => [[]]
  | c :: cs =>
      if c = sep then [] :: jsSplit sep cs
      else
        match jsSplit sep cs with
        | g :: gs => (c :: g) :: gs
        | [] => [[c]]

/-! ## Field risk evaluators (`calculateBPRisk`, `calculateTemperatureRisk`,
`calculateAgeRisk`, source lines 70 to 112) -/

/-- The ordered rule chain of `calculateBPRisk` on an already-parsed
systolic/diastolic pair (source lines 82 to 87). -/
def bpClassify (systolic diastolic : Int) : Nat :=
  if systolic ≥ 140 ∨ diastolic ≥ 90 then 4
  else if systolic ≥ 130 ∨ diastolic ≥ 80 then 3
  else if systolic ≥ 120 ∧ diastolic < 80 then 2
  else if systolic < 120 ∧ diastolic < 80 then 1
  else 0

/-- `calculateBPRisk(bloodPressure)`: 0 unless the argument is a truthy
string splitting on `/` into exactly two parts that both `parseInt`;
otherwise the rule chain on the parsed pair. -/
def calculateBPRisk (bloodPressure : JSVal) : Nat :=
  match bloodPressure with
  | .str s =>
      if s = "" then 0
      else
        match jsSplit '/' s.data with
        | [a, b] =>
            match jsStrParseInt (String.mk a), jsStrParseInt (String.mk b) with
            | some systolic, some diastolic => bpClassify systolic diastolic
            | _, _ => 0
        | _ => 0
  | _ => 0

/-- `calculateTemperatureRisk(temperature)`: 0 on `null`/`undefined` or a
`parseFloat` failure, else 2 at or above 101.0, 1 at or above 99.6, 0
below. -/
def calculateTemperatureRisk (temperature : JSVal) : Nat :=
  if temperature = .null then 0
  else
    match jsParseFloat temperature with
    | none => 0
    | some temp =>
        if temp ≥ 101 then 2
        else if temp ≥ (99.6 : ℚ) then 1
        else 0

/-- `calculateAgeRisk(age)`: 0 on `null`/`undefined` or a `parseInt`
failure, else 2 above 65, 1 from 40 up, 1 under 40. -/
def calculateAgeRisk (age : JSVal) : Nat :=
  if age = .null then 0
  else
    match jsParseInt age with
    | none => 0
    | some ageNum =>
        if ageNum > 65 then 2
        else if ageNum ≥ 40 then 1
        else 1

/-! ## Data-quality validator and aggregator
(`hasDataQualityIssues`, `processPatients`, source lines 115 to 168) -/

/-- One patient record.  The identifier is opaque (the code only ever
copies `patient.patient_id` into the output lists). -/
structure Patient where
  patient_id : String
  blood_pressure : JSVal
  temperature : JSVal
  age : JSVal
deriving DecidableEq, Repr

/-- `hasDataQualityIssues(patient)` (source lines 115 to 132): `true` as
soon as one of the three checks fails — blood pressure not a truthy
string splitting into two `parseInt`-parseable parts, temperature
`null`/`undefined` or not `parseFloat`-parseable, age `null`/`undefined`
or not `parseInt`-parseable. -/
def hasDataQualityIssues (patient : Patient) : Bool :=
  (match patient.blood_pressure with
   | .str s =>
       if s = "" then true
       else
         match jsSplit '/' s.data with
         | [a, b] => (jsStrParseInt (String.mk a)).isNone ||
             (jsStrParseInt (String.mk b)).isNone
         | _ => true
   | _ => true)
  || (patient.temperature = .null || (jsParseFloat patient.temperature).isNone)
  || (patient.age = .null || (jsParseInt patient.age).isNone)

/-- The three accumulating output lists of `processPatients`. -/
structure Results where
  highRiskPatients : List String
  feverPatients : List String
  dataQualityIssues : List String
deriving DecidableEq, Repr

/-- The body of the `forEach` in `processPatients` (source lines 142 to
165), acting on the accumulated results: a record failing the quality
check only pushes its id onto `dataQualityIssues`; otherwise the three
risks are computed, the id is pushed onto `highRiskPatients` when their
sum reaches 4, and — independently — onto `feverPatients` when the
re-parsed temperature reaches 99.6. -/
def processPatient (results : Results) (patient : Patient) : Results :=
  if hasDataQualityIssues patient then
    { results with
        dataQualityIssues := results.dataQualityIssues ++ [patient.patient_id] }
  else
    let bpRisk := calculateBPRisk patient.blood_pressure
    let tempRisk := calculateTemperatureRisk patient.temperature
    let ageRisk := calculateAgeRisk patient.age
    let totalRisk := bpRisk + tempRisk + ageRisk
    let results1 :=
      if totalRisk ≥ 4 then
        { results with
            highRiskPatients := results.highRiskPatients ++ [patient.patient_id] }
      else results
    match jsParseFloat patient.temperature with
    | some temp =>
        if temp ≥ (99.6 : ℚ) then
          { results1 with
              feverPatients := results1.feverPatients ++ [patient.patient_id] }
        else results1
    | none => results1

/-- `processPatients(patients)` (source lines 135 to 168): fold the per-
record body over the input, starting from three empty lists. -/
def processPatients (patients : List Patient) : Results :=
  patients.foldl processPatient ⟨[], [], []⟩

/-! ## Paginated fetch (`fetchAllPatients`, source lines 39 to 67)

The HTTP layer is abstracted away: the input is the sequence of payloads
the server returns for page 1, page 2, … — `none` models a falsy payload
(`data` itself not an object), `PageResponse.data = none` models a payload
whose `data` field is missing or falsy, and `hasNext` is the raw value of
`pagination?.hasNext` (`.null` when `pagination` is absent). -/

/-- One page payload as `fetchAllPatients` sees it after a successful
request. -/
structure PageResponse where
  data : Option (List Patient)
  hasNext : JSVal
deriving DecidableEq, Repr

/-- The `while (hasNext)` loop of `fetchAllPatients`: the k-th list entry
is the payload returned for the k-th requested page.  A falsy payload or a
payload without a `data` field ends the stream without contributing
records; a falsy `pagination?.hasNext` ends it after contributing the
page's records. -/
def fetchAllPatients : List (Option PageResponse) → List Patient
  | [] => []
  | resp :: rest =>
      match resp with
      | some r =>
          match r.data with
          | some records =>
              if truthy r.hasNext then records ++ fetchAllPatients rest
              else records
          | none => []
      | none => []

/-- A response at which the pagination loop stops requesting further
pages: a falsy payload, a payload without data, or a missing/falsy
has-next flag. -/
def terminalResponse : Option PageResponse → Prop
  | some r => r.data = none ∨ truthy r.hasNext = false
  | none => True

/-- The records a terminal response itself contributes: its data when the
loop stops because the has-next flag is falsy, nothing when it stops
because the payload or its data is missing. -/
def terminalData : Option PageResponse → List Patient
  | some r => if truthy r.hasNext then [] else r.data.getD []
  | none => []

/-! ## Retry wrapper (`makeRequestWithRetry`, source lines 21 to 36)

One call is modelled by the sequence of per-attempt outcomes the
transport would produce: attempt `i` either succeeds with a payload or
fails with the status of the error's attached response (`none` when the
error has no response).  The function returns the outcome together with
the list of backoff delays it slept, in order. -/

/-- Outcome of a single underlying request attempt. -/
inductive AttemptOutcome (α : Type) where
  | success (d : α) : AttemptOutcome α
  | failure (status : Option Nat) : AttemptOutcome α
deriving DecidableEq, Repr

/-- `error.response && [429, 500, 503].includes(error.response.status)`:
the failure statuses that trigger a retry. -/
def isRetryable : Option Nat → Bool
  | some st => [429, 500, 503].contains st
  | none => false

/-- Result of `makeRequestWithRetry`: a returned payload, a propagated
error (carrying the response status the error held, if any), or the
`undefined` fall-through when the loop never runs (`maxRetries = 0`). -/
inductive RetryOutcome (α : Type) where
  | ok (d : α) : RetryOutcome α
  | err (status : Option Nat) : RetryOutcome α
  | exhausted : RetryOutcome α
deriving DecidableEq, Repr

/-- The `for` loop of `makeRequestWithRetry` from iteration `attempt` with
`remaining` iterations left (`attempt + remaining = maxRetries + 1` at
every call): a success returns immediately; a retryable failure on any
attempt but the last sleeps `retryDelay * attempt` and continues; a
retryable failure on the last attempt, or any other failure, propagates
at once.  Also returns the list of delays slept, in order. -/
def retryAux {α : Type} (attempts : Nat → AttemptOutcome α) (retryDelay : Nat) :
    Nat → Nat → RetryOutcome α × List Nat
  | _, 0 => (.exhausted, [])
  | attempt, remaining + 1 =>
      match attempts attempt with
      | .success d => (.ok d, [])
      | .failure st =>
          if isRetryable st then
            if remaining = 0 then (.err st, [])
            else
              let res := retryAux attempts retryDelay (attempt + 1) remaining
              (res.1, retryDelay * attempt :: res.2)
          else (.err st, [])

/-- `makeRequestWithRetry(url, maxRetries, retryDelay)`: run the attempt
loop starting at attempt 1. -/
def makeRequestWithRetry {α : Type} (attempts : Nat → AttemptOutcome α)
    (maxRetries retryDelay : Nat) : RetryOutcome α × List Nat :=
  retryAux attempts retryDelay 1 maxRetries

/-! ## The evaluators' own parse checks, extracted

These three predicates are, verbatim, the guard prefixes of
`calculateBPRisk` (source lines 70 to 79), `calculateTemperatureRisk`
(lines 91 to 95) and `calculateAgeRisk` (lines 103 to 107): the evaluator
returns a classification rather than falling closed to 0 exactly when its
predicate holds. -/

/-- The parse check `calculateBPRisk` applies before classifying. -/
def bpParseOk (v : JSVal) : Bool :=
  match v with
  | .str s =>
      s ≠ "" &&
        (match jsSplit '/' s.data with
         | [a, b] => (jsStrParseInt (String.mk a)).isSome &&
             (jsStrParseInt (String.mk b)).isSome
         | _ => false)
  | _ => false

/-- The parse check `calculateTemperatureRisk` applies before
classifying. -/
def tempParseOk (v : JSVal) : Bool :=
  v ≠ .null && (jsParseFloat v).isSome

/-- The parse check `calculateAgeRisk` applies before classifying. -/
def ageParseOk (v : JSVal) : Bool :=
  v ≠ .null && (jsParseInt v).isSome

/-! ## Helper lemmas -/

/-- The validator computes exactly the negated conjunction of the three
evaluators' parse checks. -/
lemma hasDataQualityIssues_eq (p : Patient) :
    hasDataQualityIssues p
      = !(bpParseOk p.blood_pressure && (tempParseOk p.temperature && ageParseOk p.age)) := by
  obtain ⟨pid, bp, temp, age⟩ := p
  simp only [hasDataQualityIssues, bpParseOk, tempParseOk, ageParseOk]
  cases bp with
  | str s =>
      by_cases hs : s = ""
      · simp [hs]
      · rcases hsp : jsSplit '/' s.data with _ | ⟨a, _ | ⟨b, _ | _⟩⟩
        · simp [hs, hsp]
        · simp [hs, hsp]
        · cases h1 : jsStrParseInt (String.mk a) <;>
            cases h2 : jsStrParseInt (String.mk b) <;>
              simp_all [Option.isNone_iff_eq_none, Bool.or_comm, Bool.or_left_comm,
                Bool.and_comm, Bool.and_left_comm]
        · simp [hs, hsp]
  | null => simp
  | num q => simp
  | bool b => simp

/-- A record passes the validator exactly when all three evaluators'
parse checks succeed on its fields. -/
lemma validator_iff (p : Patient) :
    hasDataQualityIssues p = false ↔
      (bpParseOk p.blood_pressure = true ∧ tempParseOk p.temperature = true ∧
        ageParseOk p.age = true) := by
  rw [hasDataQualityIssues_eq]
  simp

/-- The rule chain never exceeds 4. -/
lemma bpClassify_le_four (S D : Int) : bpClassify S D ≤ 4 := by
  unfold bpClassify
  split_ifs <;> omega

/-- With both parts parsed, the four ordered rules are exhaustive: the
trailing `return 0` of `calculateBPRisk` is unreachable. -/
lemma bpClassify_pos (S D : Int) : 1 ≤ bpClassify S D := by
  unfold bpClassify
  split_ifs <;> omega

/-- The blood-pressure contribution is at most 4. -/
lemma calculateBPRisk_le_four (v : JSVal) : calculateBPRisk v ≤ 4 := by
  unfold calculateBPRisk
  cases v with
  | str s =>
      by_cases hs : s = ""
      · simp [hs]
      · rcases hsp : jsSplit '/' s.data with _ | ⟨a, _ | ⟨b, _ | _⟩⟩ <;>
          simp [hs, hsp] <;>
            cases h1 : jsStrParseInt (String.mk a) <;>
              cases h2 : jsStrParseInt (String.mk b) <;>
                simp [bpClassify_le_four]
  | null => simp
  | num q => simp
  | bool b => simp

/-- The temperature contribution is at most 2. -/
lemma calculateTemperatureRisk_le_two (v : JSVal) : calculateTemperatureRisk v ≤ 2 := by
  unfold calculateTemperatureRisk
  by_cases hv : v = .null
  · simp [hv]
  · cases h : jsParseFloat v <;> simp [hv, h] <;> split_ifs <;> omega

/-- The age contribution is at most 2. -/
lemma calculateAgeRisk_le_two (v : JSVal) : calculateAgeRisk v ≤ 2 := by
  unfold calculateAgeRisk
  by_cases hv : v = .null
  · simp [hv]
  · cases h : jsParseInt v <;> simp [hv, h] <;> split_ifs <;> omega

/-- A field that passes the age parse check contributes at least 1. -/
lemma calculateAgeRisk_pos (v : JSVal) (h : ageParseOk v = true) :
    1 ≤ calculateAgeRisk v := by
  unfold ageParseOk at h
  rcases Bool.and_eq_true_iff.mp h with ⟨hv, hsome⟩
  rcases Option.isSome_iff_exists.mp hsome with ⟨a, ha⟩
  have hv' : v ≠ JSVal.null := by simpa using hv
  simp only [calculateAgeRisk, if_neg hv', ha]
  split_ifs <;> omega

/-- Splitting the empty string gives one empty piece, never two. -/
lemma jsSplit_empty_ne (a b : List Char) : jsSplit '/' ("".data) ≠ [a, b] := by
  intro h
  rw [show jsSplit '/' ("".data) = [[]] from rfl] at h
  simp at h

/-- When the blood-pressure string splits into two parts and both parts
parse, `calculateBPRisk` classifies the parsed pair. -/
lemma calculateBPRisk_parsed (s : String) (a b : List Char) (S D : Int)
    (hsp : jsSplit '/' s.data = [a, b])
    (hA : jsStrParseInt (String.mk a) = some S)
    (hB : jsStrParseInt (String.mk b) = some D) :
    calculateBPRisk (.str s) = bpClassify S D := by
  have hs : s ≠ "" := by rintro rfl; exact jsSplit_empty_ne a b hsp
  simp only [calculateBPRisk, if_neg hs, hsp, hA, hB]

/-! ## Claim theorems -/

/-- C6: `calculateTemperatureRisk` returns 0 when the input is not
parseable as a decimal number, 2 when the parsed value is at least 101.0,
1 when it is at least 99.6 and below 101.0, and 0 otherwise; in
particular 101.0 gives 2, 99.6 gives 1, 99.5 gives 0, and the string
"abc" gives 0. -/
theorem calculateTemperatureRisk_spec :
    (∀ v : JSVal, jsParseFloat v = none → calculateTemperatureRisk v = 0) ∧
    (∀ (v : JSVal) (t : ℚ), jsParseFloat v = some t → (101 : ℚ) ≤ t →
      calculateTemperatureRisk v = 2) ∧
    (∀ (v : JSVal) (t : ℚ), jsParseFloat v = some t → (99.6 : ℚ) ≤ t → t < 101 →
      calculateTemperatureRisk v = 1) ∧
    (∀ (v : JSVal) (t : ℚ), jsParseFloat v = some t → t < (99.6 : ℚ) →
      calculateTemperatureRisk v = 0) ∧
    calculateTemperatureRisk (.num 101) = 2 ∧
    calculateTemperatureRisk (.num (99.6 : ℚ)) = 1 ∧
    calculateTemperatureRisk (.num (99.5 : ℚ)) = 0 ∧
    calculateTemperatureRisk (.str "abc") = 0 := by
  refine ⟨?_, ?_, ?_, ?_, by decide,
    by simp [calculateTemperatureRisk, jsParseFloat] <;> norm_num,
    by simp [calculateTemperatureRisk, jsParseFloat] <;> norm_num, by decide⟩
  · intro v h
    by_cases hv : v = .null
    · simp [hv, calculateTemperatureRisk]
    · simp [calculateTemperatureRisk, hv, h]
  · intro v t h ht
    have hv : v ≠ .null := by rintro rfl; simp [jsParseFloat] at h
    simp only [calculateTemperatureRisk, if_neg hv, h]
    rw [if_pos ht]
  · intro v t h ht hlt
    have hv : v ≠ .null := by rintro rfl; simp [jsParseFloat] at h
    simp only [calculateTemperatureRisk, if_neg hv, h]
    rw [if_neg (by exact not_le.mpr hlt), if_pos ht]
  · intro v t h ht
    have hv : v ≠ .null := by rintro rfl; simp [jsParseFloat] at h
    have h1 : ¬ (t ≥ (101 : ℚ)) := by
      refine not_le.mpr (lt_trans ht ?_)
      norm_num
    simp only [calculateTemperatureRisk, if_neg hv, h]
    rw [if_neg h1, if_neg (not_le.mpr ht)]

/-- Witness for C6 at a concrete input: the number 100.2 parses to
itself and lands in the low-fever band. -/
theorem calculateTemperatureRisk_spec_witness :
    calculateTemperatureRisk (JSVal.num (100.2 : ℚ)) = 1 :=
  calculateTemperatureRisk_spec.2.2.1 (JSVal.num (100.2 : ℚ)) (100.2 : ℚ)
    rfl (by norm_num) (by norm_num)

/-- C7: `calculateAgeRisk` returns 0 when the input (including `null`) is
not parseable as an integer, 2 when the parsed age exceeds 65, and 1 for
every other parseable age, so a parseable age never contributes 0; in
particular 66 gives 2, 40 gives 1, 10 gives 1, and `null` gives 0. -/
theorem calculateAgeRisk_spec :
    (∀ v : JSVal, jsParseInt v = none → calculateAgeRisk v = 0) ∧
    (∀ (v : JSVal) (a : Int), jsParseInt v = some a → 65 < a →
      calculateAgeRisk v = 2) ∧
    (∀ (v : JSVal) (a : Int), jsParseInt v = some a → a ≤ 65 →
      calculateAgeRisk v = 1) ∧
    calculateAgeRisk (.num 66) = 2 ∧
    calculateAgeRisk (.num 40) = 1 ∧
    calculateAgeRisk (.num 10) = 1 ∧
    calculateAgeRisk .null = 0 := by
  refine ⟨?_, ?_, ?_, by decide, by decide, by decide, by decide⟩
  · intro v h
    by_cases hv : v = .null
    · simp [hv, calculateAgeRisk]
    · simp [calculateAgeRisk, hv, h]
  · intro v a h ha
    have hv : v ≠ .null := by rintro rfl; simp [jsParseInt] at h
    simp only [calculateAgeRisk, if_neg hv, h]
    rw [if_pos ha]
  · intro v a h ha
    have hv : v ≠ .null := by rintro rfl; simp [jsParseInt] at h
    simp only [calculateAgeRisk, if_neg hv, h]
    rw [if_neg (not_lt.mpr ha)]
    split_ifs <;> rfl

/-- Witness for C7 at a concrete input: the string "72" parses to 72 and
lands in the over-65 band. -/
theorem calculateAgeRisk_spec_witness :
    calculateAgeRisk (JSVal.str "72") = 2 :=
  calculateAgeRisk_spec.2.1 (JSVal.str "72") 72 (by decide) (by norm_num)

/-- C2 counterexample: the claim says a pair with diastolic in [80,90)
and systolic below 120 is unclassifiable and yields 0; the code's second
rule (`systolic >= 130 || diastolic >= 80`) catches it and yields 3. -/
theorem calculateBPRisk_gap_cex :
    calculateBPRisk (JSVal.str "110/85") = 3 ∧
      calculateBPRisk (JSVal.str "110/85") ≠ 0 := by decide

/-- C2 (amended): `calculateBPRisk` returns 0 whenever the input is not a
string, is empty, does not split on `/` into exactly two parts, or has a
part that does not `parseInt`; otherwise it classifies the parsed pair by
the first matching rule in the fixed order 4, 3, 2, 1 — and those four
rules are exhaustive, so the trailing 0 branch is unreachable (a pair
with diastolic in [80,90) and systolic below 120 falls under the second
rule and yields 3, not 0). -/
theorem calculateBPRisk_spec :
    (∀ v : JSVal, (∀ s, v ≠ .str s) → calculateBPRisk v = 0) ∧
    calculateBPRisk (.str "") = 0 ∧
    (∀ s : String, (∀ a b, jsSplit '/' s.data ≠ [a, b]) →
      calculateBPRisk (.str s) = 0) ∧
    (∀ (s : String) (a b : List Char), jsSplit '/' s.data = [a, b] →
      jsStrParseInt (String.mk a) = none ∨ jsStrParseInt (String.mk b) = none →
      calculateBPRisk (.str s) = 0) ∧
    (∀ (s : String) (a b : List Char) (S D : Int), jsSplit '/' s.data = [a, b] →
      jsStrParseInt (String.mk a) = some S → jsStrParseInt (String.mk b) = some D →
      calculateBPRisk (.str s) = bpClassify S D) ∧
    (∀ S D : Int, 140 ≤ S ∨ 90 ≤ D → bpClassify S D = 4) ∧
    (∀ S D : Int, S < 140 → D < 90 → 130 ≤ S ∨ 80 ≤ D → bpClassify S D = 3) ∧
    (∀ S D : Int, S < 130 → D < 80 → 120 ≤ S → bpClassify S D = 2) ∧
    (∀ S D : Int, S < 120 → D < 80 → bpClassify S D = 1) ∧
    (∀ S D : Int, 1 ≤ bpClassify S D) := by
  refine ⟨?_, by decide, ?_, ?_,
    fun s a b S D hsp hA hB => calculateBPRisk_parsed s a b S D hsp hA hB,
    ?_, ?_, ?_, ?_, fun S D => bpClassify_pos S D⟩
  · intro v h
    cases v with
    | str s => exact absurd rfl (h s)
    | null => rfl
    | num q => rfl
    | bool b => rfl
  · intro s h
    by_cases hs : s = ""
    · subst hs; decide
    · rcases hsp : jsSplit '/' s.data with _ | ⟨a, _ | ⟨b, _ | _⟩⟩
      · simp only [calculateBPRisk, if_neg hs, hsp]
      · simp only [calculateBPRisk, if_neg hs, hsp]
      · exact absurd hsp (h a b)
      · simp only [calculateBPRisk, if_neg hs, hsp]
  · intro s a b hsp hnone
    have hs : s ≠ "" := by rintro rfl; exact jsSplit_empty_ne a b hsp
    rcases hnone with h | h <;> cases ha : jsStrParseInt (String.mk a) <;>
      cases hb : jsStrParseInt (String.mk b) <;>
        simp_all only [calculateBPRisk, if_neg hs, Option.some.injEq,
          reduceCtorEq] <;> simp
  · intro S D h
    unfold bpClassify
    split_ifs <;> omega
  · intro S D h1 h2 h3
    unfold bpClassify
    split_ifs <;> omega
  · intro S D h1 h2 h3
    unfold bpClassify
    split_ifs <;> omega
  · intro S D h1 h2
    unfold bpClassify
    split_ifs <;> omega

/-- Witness for C2 at a concrete input: "128/79" splits and parses to
(128, 79), which the elevated rule classifies as 2. -/
theorem calculateBPRisk_spec_witness :
    calculateBPRisk (JSVal.str "128/79") = 2 := by
  have h := calculateBPRisk_spec.2.2.2.2.1 "128/79" "128".data "79".data 128 79
    (by decide) (by decide) (by decide)
  rw [h]
  decide

/-- C8 counterexample: the claim says the pair (119, 85) yields 0; the
code's second rule catches the diastolic of 85 and yields 3. -/
theorem calculateBPRisk_monotone_cex :
    calculateBPRisk (JSVal.str "119/85") = 3 ∧
      calculateBPRisk (JSVal.str "119/85") ≠ 0 := by decide

/-- C8 (amended): on parsed pairs the rule chain of `calculateBPRisk` is
monotonically non-decreasing in each component (globally, hence within
each rule's domain), and rule precedence is respected: (135, 70) yields 3
via its systolic reading alone, while (119, 85) yields 3 — not 0 — via
its diastolic reading. -/
theorem calculateBPRisk_monotone :
    (∀ S S' D D' : Int, S ≤ S' → D ≤ D' → bpClassify S D ≤ bpClassify S' D') ∧
    calculateBPRisk (JSVal.str "135/70") = 3 ∧
    calculateBPRisk (JSVal.str "119/85") = 3 := by
  refine ⟨?_, by decide, by decide⟩
  intro S S' D D' hS hD
  unfold bpClassify
  split_ifs <;> omega

/-- Witness for C8 at concrete inputs: raising the systolic reading from
125 to 135 does not lower the classification. -/
theorem calculateBPRisk_monotone_witness :
    bpClassify 125 70 ≤ bpClassify 135 70 :=
  calculateBPRisk_monotone.1 125 135 70 70 (by decide) (by decide)

/-- C1: for a record that passes the data-quality check, `processPatients`
appends its identifier to the high-risk list exactly when the three risk
contributions sum to at least 4, and — independently — to the fever list
exactly when the re-parsed temperature is at least 99.6; the fold visits
records in order; the record (blood_pressure "130/85", temperature 99.0,
age 70) is usable, scores 3 + 0 + 2 = 5, lands in the high-risk list and
not in the fever list. -/
theorem processPatients_classifies :
    (∀ (r : Results) (p : Patient), hasDataQualityIssues p = false →
      (4 ≤ calculateBPRisk p.blood_pressure + calculateTemperatureRisk p.temperature +
          calculateAgeRisk p.age →
        (processPatient r p).highRiskPatients = r.highRiskPatients ++ [p.patient_id]) ∧
      (calculateBPRisk p.blood_pressure + calculateTemperatureRisk p.temperature +
          calculateAgeRisk p.age < 4 →
        (processPatient r p).highRiskPatients = r.highRiskPatients) ∧
      (∀ t : ℚ, jsParseFloat p.temperature = some t → (99.6 : ℚ) ≤ t →
        (processPatient r p).feverPatients = r.feverPatients ++ [p.patient_id]) ∧
      (∀ t : ℚ, jsParseFloat p.temperature = some t → t < (99.6 : ℚ) →
        (processPatient r p).feverPatients = r.feverPatients)) ∧
    (∀ (ps : List Patient) (p : Patient),
      processPatients (ps ++ [p]) = processPatient (processPatients ps) p) ∧
    (hasDataQualityIssues ⟨"demo", .str "130/85", .num 99, .num 70⟩ = false ∧
      calculateBPRisk (JSVal.str "130/85") = 3 ∧
      calculateTemperatureRisk (JSVal.num 99) = 0 ∧
      calculateAgeRisk (JSVal.num 70) = 2 ∧
      processPatients [⟨"demo", .str "130/85", .num 99, .num 70⟩] = ⟨["demo"], [], []⟩) := by
  have hfever : ¬ ((99 : ℚ) ≥ (99.6 : ℚ)) := by norm_num
  refine ⟨?_, ?_, by decide, by decide,
    by simp [calculateTemperatureRisk, jsParseFloat] <;> norm_num, by decide, ?_⟩
  · intro r p h
    have hd : ¬ (hasDataQualityIssues p = true) := by simp [h]
    refine ⟨?_, ?_, ?_, ?_⟩
    · intro h4
      cases ht : jsParseFloat p.temperature with
      | none => simp [processPatient, hd, ht, ge_iff_le, h4]
      | some t =>
          simp only [processPatient, if_neg hd, ht, ge_iff_le, if_pos h4]
          split_ifs <;> simp
    · intro h4
      have h4' : ¬ (4 ≤ calculateBPRisk p.blood_pressure +
          calculateTemperatureRisk p.temperature + calculateAgeRisk p.age) := by omega
      cases ht : jsParseFloat p.temperature with
      | none => simp [processPatient, hd, ht, ge_iff_le, h4']
      | some t =>
          simp only [processPatient, if_neg hd, ht, ge_iff_le, if_neg h4']
          split_ifs <;> simp
    · intro t ht hge
      simp only [processPatient, if_neg hd, ht, ge_iff_le, if_pos hge]
      split_ifs <;> simp
    · intro t ht hlt
      simp only [processPatient, if_neg hd, ht, ge_iff_le,
        if_neg (not_le.mpr hlt)]
      split_ifs <;> simp
  · intro ps p
    simp [processPatients, List.foldl_append]
  · have h1 : hasDataQualityIssues ⟨"demo", .str "130/85", .num 99, .num 70⟩ = false := by
      decide
    have hd : ¬ (hasDataQualityIssues ⟨"demo", .str "130/85", .num 99, .num 70⟩ = true) := by
      simp [h1]
    have htmp : calculateTemperatureRisk (JSVal.num 99) = 0 := by
      simp [calculateTemperatureRisk, jsParseFloat] <;> norm_num
    simp only [processPatients, List.foldl, processPatient, if_neg hd,
      jsParseFloat, if_neg hfever]
    rw [show calculateBPRisk (JSVal.str "130/85") = 3 from by decide, htmp,
      show calculateAgeRisk (JSVal.num 70) = 2 from by decide]
    decide

/-- Witness for C1 at a concrete input: a usable record scoring
4 + 2 + 1 = 7 has its identifier appended to the high-risk list. -/
theorem processPatients_classifies_witness :
    hasDataQualityIssues ⟨"w1", .str "150/95", .num 101, .num 50⟩ = false ∧
      (processPatient ⟨[], [], []⟩ ⟨"w1", .str "150/95", .num 101, .num 50⟩).highRiskPatients
        = [] ++ ["w1"] :=
  ⟨by decide,
    (processPatients_classifies.1 ⟨[], [], []⟩ ⟨"w1", .str "150/95", .num 101, .num 50⟩
      (by decide)).1 (by decide)⟩

/-- C3: a record that fails the data-quality check only has its
identifier appended to the data-quality list — the high-risk and fever
lists are untouched, whatever its field values — while a record that
passes the check never touches the data-quality list; a record whose age
field is missing is such a failing record. -/
theorem processPatients_dataQuality :
    (∀ (r : Results) (p : Patient), hasDataQualityIssues p = true →
      processPatient r p =
        { r with dataQualityIssues := r.dataQualityIssues ++ [p.patient_id] }) ∧
    (∀ (r : Results) (p : Patient), hasDataQualityIssues p = false →
      (processPatient r p).dataQualityIssues = r.dataQualityIssues) ∧
    (hasDataQualityIssues ⟨"noage", .str "120/80", .num 97, .null⟩ = true ∧
      processPatients [⟨"noage", .str "120/80", .num 97, .null⟩] = ⟨[], [], ["noage"]⟩) := by
  refine ⟨?_, ?_, by decide, by decide⟩
  · intro r p h
    simp [processPatient, h]
  · intro r p h
    have hd : ¬ (hasDataQualityIssues p = true) := by simp [h]
    cases ht : jsParseFloat p.temperature with
    | none => simp only [processPatient, if_neg hd, ht] <;> split_ifs <;> simp
    | some t => simp only [processPatient, if_neg hd, ht] <;> split_ifs <;> simp

/-- Witness for C3 at a concrete input: a record with an unparseable
blood pressure goes only to the data-quality list. -/
theorem processPatients_dataQuality_witness :
    processPatient ⟨[], [], []⟩ ⟨"w3", .str "garbled", .num 97, .num 50⟩
      = { highRiskPatients := [], feverPatients := [],
          dataQualityIssues := [] ++ ["w3"] } :=
  processPatients_dataQuality.1 ⟨[], [], []⟩ ⟨"w3", .str "garbled", .num 97, .num 50⟩
    (by decide)

/-- C9: the total risk score `processPatients` computes for a record that
passed the data-quality check always lies between 1 and 8: the age field
of a validated record parses, and every parsed age contributes at least
1, while the three axes are bounded by 4, 2 and 2. -/
theorem totalRisk_bounds (p : Patient) (h : hasDataQualityIssues p = false) :
    1 ≤ calculateBPRisk p.blood_pressure + calculateTemperatureRisk p.temperature +
        calculateAgeRisk p.age ∧
      calculateBPRisk p.blood_pressure + calculateTemperatureRisk p.temperature +
        calculateAgeRisk p.age ≤ 8 := by
  obtain ⟨hbp, htemp, hage⟩ := (validator_iff p).mp h
  constructor
  · have h1 := calculateAgeRisk_pos p.age hage
    omega
  · have h1 := calculateBPRisk_le_four p.blood_pressure
    have h2 := calculateTemperatureRisk_le_two p.temperature
    have h3 := calculateAgeRisk_le_two p.age
    omega

/-- Witness for C9 at a concrete input: a usable low-risk record. -/
theorem totalRisk_bounds_witness :
    1 ≤ calculateBPRisk (JSVal.str "118/75") + calculateTemperatureRisk (JSVal.num 101) +
        calculateAgeRisk (JSVal.num 30) ∧
      calculateBPRisk (JSVal.str "118/75") + calculateTemperatureRisk (JSVal.num 101) +
        calculateAgeRisk (JSVal.num 30) ≤ 8 :=
  totalRisk_bounds ⟨"w9", .str "118/75", .num 101, .num 30⟩ (by decide)

/-- C10: the validator accepts a record exactly when the three parse
checks the evaluators themselves apply all succeed — it is equivalent to,
not stricter than, their combined parse checks — so on a validated record
each evaluator reaches its classification code: the blood pressure is a
two-part string whose parts parse and `calculateBPRisk` returns the rule
chain's answer on them, and the temperature and age parse. -/
theorem hasDataQualityIssues_iff :
    (∀ p : Patient, hasDataQualityIssues p = false ↔
      (bpParseOk p.blood_pressure = true ∧ tempParseOk p.temperature = true ∧
        ageParseOk p.age = true)) ∧
    (∀ p : Patient, hasDataQualityIssues p = false →
      (∃ (s : String) (a b : List Char) (S D : Int),
        p.blood_pressure = .str s ∧ jsSplit '/' s.data = [a, b] ∧
          jsStrParseInt (String.mk a) = some S ∧ jsStrParseInt (String.mk b) = some D ∧
          calculateBPRisk p.blood_pressure = bpClassify S D) ∧
      (∃ t : ℚ, jsParseFloat p.temperature = some t) ∧
      (∃ n : Int, jsParseInt p.age = some n)) := by
  refine ⟨validator_iff, ?_⟩
  intro p h
  obtain ⟨hbp, htemp, hage⟩ := (validator_iff p).mp h
  refine ⟨?_, ?_, ?_⟩
  · cases hv : p.blood_pressure with
    | str s =>
        rw [hv] at hbp
        simp only [bpParseOk, Bool.and_eq_true, decide_eq_true_eq] at hbp
        rcases hsp : jsSplit '/' s.data with _ | ⟨a, _ | ⟨b, _ | _⟩⟩ <;>
          rw [hsp] at hbp <;>
            simp only [Bool.and_eq_true, Bool.false_eq_true, and_false] at hbp
        obtain ⟨hs, hA, hB⟩ := hbp
        obtain ⟨S, hSA⟩ := Option.isSome_iff_exists.mp hA
        obtain ⟨D, hDB⟩ := Option.isSome_iff_exists.mp hB
        exact ⟨s, a, b, S, D, rfl, hsp, hSA, hDB,
          hv ▸ calculateBPRisk_parsed s a b S D hsp hSA hDB⟩
    | null => rw [hv] at hbp; simp [bpParseOk] at hbp
    | num q => rw [hv] at hbp; simp [bpParseOk] at hbp
    | bool b => rw [hv] at hbp; simp [bpParseOk] at hbp
  · unfold tempParseOk at htemp
    exact Option.isSome_iff_exists.mp (Bool.and_eq_true_iff.mp htemp).2
  · unfold ageParseOk at hage
    exact Option.isSome_iff_exists.mp (Bool.and_eq_true_iff.mp hage).2

/-- Witness for C10 at a concrete input: a fully parseable record passes
the validator and its temperature has a parsed value. -/
theorem hasDataQualityIssues_iff_witness :
    ∃ t : ℚ, jsParseFloat (JSVal.num 98) = some t :=
  ((hasDataQualityIssues_iff.2 ⟨"w10", .str "121/64", .num 98, .num 50⟩
    (by decide)).2.1)

/-- C4: the pagination loop returns the concatenation, in page order, of
the data of every page it fetched, and stops requesting pages exactly at
the first response whose has-more-pages flag is missing or falsy or that
lacks a data payload — responses after the terminal one are never
consulted (the result does not depend on them). -/
theorem fetchAllPatients_spec :
    ∀ body : List (List Patient × JSVal), (∀ x ∈ body, truthy x.2 = true) →
      ∀ t : Option PageResponse, terminalResponse t →
        ∀ rest : List (Option PageResponse),
          fetchAllPatients ((body.map fun x => some ⟨some x.1, x.2⟩) ++ t :: rest)
            = (body.map Prod.fst).flatten ++ terminalData t := by
  intro body
  induction body with
  | nil =>
      intro _ t ht rest
      cases t with
      | none => simp [fetchAllPatients, terminalData]
      | some r =>
          have ht' : r.data = none ∨ truthy r.hasNext = false := ht
          cases hdat : r.data with
          | none => simp [fetchAllPatients, hdat, terminalData]
          | some d =>
              rcases ht' with h1 | h2
              · rw [hdat] at h1; cases h1
              · simp [fetchAllPatients, hdat, h2, terminalData]
  | cons x tl ih =>
      intro hb t ht rest
      obtain ⟨d, flag⟩ := x
      have hflag : truthy flag = true := hb (d, flag) (List.mem_cons_self _ _)
      simp only [List.map_cons, List.cons_append, fetchAllPatients, hflag, if_true,
        List.flatten_cons, List.append_eq]
      rw [ih (fun y hy => hb y (List.mem_cons_of_mem _ hy)) t ht rest,
        List.append_assoc]

/-- Witness for C4 at concrete inputs: two pages with data, a truthy then
a falsy flag, followed by a junk page that is never fetched. -/
theorem fetchAllPatients_spec_witness :
    fetchAllPatients
        [some ⟨some [⟨"a", .null, .null, .null⟩], .bool true⟩,
         some ⟨some [⟨"b", .null, .null, .null⟩], .bool false⟩,
         some ⟨some [⟨"junk", .null, .null, .null⟩], .bool true⟩]
      = [⟨"a", .null, .null, .null⟩, ⟨"b", .null, .null, .null⟩] :=
  fetchAllPatients_spec [([⟨"a", .null, .null, .null⟩], .bool true)] (by decide)
    (some ⟨some [⟨"b", .null, .null, .null⟩], .bool false⟩) (Or.inr rfl)
    [some ⟨some [⟨"junk", .null, .null, .null⟩], .bool true⟩]

/-- Unfolding a run of `k + 1` delay values: the first delay uses the
starting attempt number, the rest shift it up by one. -/
lemma range_succ_delays (d a k : Nat) :
    (List.range (k + 1)).map (fun i => d * (a + i))
      = d * a :: ((List.range k).map fun i => d * (a + 1 + i)) := by
  rw [List.range_succ_eq_map, List.map_cons, List.map_map]
  congr 1
  apply List.map_congr_left
  intro i hi
  simp only [Function.comp_apply]
  congr 1
  omega

/-- A run of `j` retryable failures starting at `attempt` (with more than
`j` iterations left) passes through `j` backoff delays
`retryDelay * attempt, …, retryDelay * (attempt + j - 1)` and then behaves
like the loop restarted at attempt `attempt + j`. -/
lemma retryAux_shift {α : Type} (attempts : Nat → AttemptOutcome α) (retryDelay : Nat) :
    ∀ j attempt remaining : Nat, j < remaining →
      (∀ i, attempt ≤ i → i < attempt + j →
        ∃ st, attempts i = AttemptOutcome.failure st ∧ isRetryable st = true) →
      retryAux attempts retryDelay attempt remaining
        = ((retryAux attempts retryDelay (attempt + j) (remaining - j)).1,
            ((List.range j).map fun i => retryDelay * (attempt + i)) ++
              (retryAux attempts retryDelay (attempt + j) (remaining - j)).2) := by
  intro j
  induction j with
  | zero =>
      intro attempt remaining h hpre
      simp
  | succ k ih =>
      intro attempt remaining hj hpre
      obtain ⟨m, rfl⟩ : ∃ m, remaining = m + 1 := ⟨remaining - 1, by omega⟩
      obtain ⟨st, hst, hr⟩ := hpre attempt le_rfl (by omega)
      have hm : ¬ (m = 0) := by omega
      have step : retryAux attempts retryDelay attempt (m + 1)
          = ((retryAux attempts retryDelay (attempt + 1) m).1,
              retryDelay * attempt :: (retryAux attempts retryDelay (attempt + 1) m).2) := by
        simp only [retryAux, hst, hr, if_true, if_neg hm]
      rw [step, ih (attempt + 1) m (by omega)
        (fun i h1 h2 => hpre i (by omega) (by omega))]
      have h1 : attempt + 1 + k = attempt + (k + 1) := by omega
      have h2 : m - k = m + 1 - (k + 1) := by omega
      rw [h1, h2, range_succ_delays retryDelay attempt k, List.cons_append]

/-- C5: under a prefix of retryable failures (rate-limited 429, server
error 500, service-unavailable 503) before attempt `k ≤ maxRetries`, the
retry wrapper sleeps `retryDelay * i` after each failed attempt `i`; it
returns the payload of the first successful attempt; a non-retryable
failure at attempt `k` propagates at once with no further delay and
without consulting later attempts (the result is a closed expression in
the first `k` outcomes); and a retryable failure on the final allowed
attempt propagates with no further delay. -/
theorem makeRequestWithRetry_spec {α : Type} (attempts : Nat → AttemptOutcome α)
    (maxRetries retryDelay k : Nat) (hk1 : 1 ≤ k) (hkm : k ≤ maxRetries)
    (hpre : ∀ i, 1 ≤ i → i < k →
      ∃ st, attempts i = AttemptOutcome.failure st ∧ isRetryable st = true) :
    (∀ d, attempts k = AttemptOutcome.success d →
      makeRequestWithRetry attempts maxRetries retryDelay
        = (.ok d, (List.range (k - 1)).map fun i => retryDelay * (1 + i))) ∧
    (∀ st, attempts k = AttemptOutcome.failure st → isRetryable st = false →
      makeRequestWithRetry attempts maxRetries retryDelay
        = (.err st, (List.range (k - 1)).map fun i => retryDelay * (1 + i))) ∧
    (∀ st, attempts k = AttemptOutcome.failure st → isRetryable st = true →
      k = maxRetries →
      makeRequestWithRetry attempts maxRetries retryDelay
        = (.err st, (List.range (k - 1)).map fun i => retryDelay * (1 + i))) := by
  have key := retryAux_shift attempts retryDelay (k - 1) 1 maxRetries (by omega)
    (fun i hi1 hi2 => hpre i hi1 (by omega))
  have hk' : 1 + (k - 1) = k := by omega
  rw [hk'] at key
  obtain ⟨R, hR⟩ : ∃ R, maxRetries - (k - 1) = R + 1 := ⟨maxRetries - k, by omega⟩
  rw [hR] at key
  refine ⟨?_, ?_, ?_⟩
  · intro d hd
    unfold makeRequestWithRetry
    rw [key]
    simp only [retryAux, hd, List.append_nil]
  · intro st hst hr
    unfold makeRequestWithRetry
    rw [key]
    simp only [retryAux, hst, hr, Bool.false_eq_true, if_false, List.append_nil]
  · intro st hst hr hkmax
    have hR0 : R = 0 := by omega
    subst hR0
    unfold makeRequestWithRetry
    rw [key]
    simp only [retryAux, hst, hr, if_true, if_pos rfl, List.append_nil]

/-- Witness for C5 at a concrete input: one rate-limit failure, one
1000 ms delay, then the second attempt's payload is returned. -/
theorem makeRequestWithRetry_spec_witness :
    makeRequestWithRetry
        (fun i => if i = 1 then AttemptOutcome.failure (some 429)
          else AttemptOutcome.success 7) 3 1000
      = (.ok 7, [1000]) :=
  (makeRequestWithRetry_spec
      (fun i => if i = 1 then AttemptOutcome.failure (some 429)
        else AttemptOutcome.success 7) 3 1000 2 (by decide) (by decide)
      (fun i h1 h2 => by
        have hi : i = 1 := by omega
        subst hi
        exact ⟨some 429, rfl, rfl⟩)).1 7 rfl
